import Mathlib

/-!
# Catalog browser (`src/script.js`): session state, query engine, cart, wishlist, checkout

A shallow embedding of the state-carrying functions of `script.js`.

* JavaScript numbers are embedded as exact numbers: prices and ratings are rationals,
  quantities and page numbers are integers, product ids are naturals.  Rounding of
  IEEE doubles and `NaN` are outside the embedding.
* The global `state` object is the record `State`; every handler is a function from the
  state before the call to the state after it, together with what it writes to the page
  (a list of `Effect`: toasts, cart badge text, cart total text, order confirmations).
* JavaScript built-ins the handlers call (`Array.prototype.slice`, `sort`, `find`,
  `filter`, `String.prototype.includes`) are embedded as list functions following
  ECMAScript, `Set` as a finite set; `String.prototype.toLowerCase` is a parameter.
-/

namespace Catalog

/-! ## Data model -/

/-- A product record as delivered by the catalog fetch (`data.products`). -/
structure Product where
  id : Nat
  title : String
  description : String
  category : String
  price : ℚ
  discountPercentage : ℚ
  rating : ℚ
  stock : Int
  brand : String
  thumbnail : String
  images : List String
deriving DecidableEq

/-- A cart line: `{ ...product, quantity }`, a copy of the product's fields plus a quantity. -/
structure CartItem where
  product : Product
  quantity : Int
deriving DecidableEq

/-- The `id` field a cart line copied from its product (`item.id`). -/
def CartItem.id (item : CartItem) : Nat := item.product.id

/-- The `price` field a cart line copied from its product (`item.price`). -/
def CartItem.price (item : CartItem) : ℚ := item.product.price

/-- The record `state.filters`. -/
structure Filters where
  search : String
  category : String
  sort : String
deriving DecidableEq

/-- The global `state` object.  `wishlist` is the JavaScript `Set` of ids; the program only
tests membership, adds, deletes and reads the size, so it is kept as a finite set. -/
structure State where
  products : List Product
  cart : List CartItem
  wishlist : Finset Nat
  currentPage : Int
  productsPerPage : Nat
  filters : Filters
deriving DecidableEq

/-- The initial value of `state` (lines 2-13). -/
def initialState : State :=
  { products := [], cart := [], wishlist := ∅, currentPage := 1, productsPerPage := 10,
    filters := { search := "", category := "", sort := "default" } }

/-! ## Built-ins -/

/-- The method `String.prototype.includes`: `sub` occurs in `s` as a contiguous run. -/
def includes (s sub : String) : Bool :=
  s.data.tails.any (fun t => sub.data.isPrefixOf t)

/-- The method `Array.prototype.find`: the first element satisfying the predicate. -/
def arrayFind {α : Type} (p : α → Bool) (xs : List α) : Option α := xs.find? p

/-- The method `Array.prototype.slice(start, end)` with the index clamping of ECMAScript:
a negative index counts from the end, and both ends are clamped to `[0, length]`. -/
def arraySlice {α : Type} (xs : List α) (start stop : Int) : List α :=
  let len : Int := xs.length
  let k : Int := if start < 0 then max (len + start) 0 else min start len
  let final : Int := if stop < 0 then max (len + stop) 0 else min stop len
  (xs.drop k.toNat).take (final - k).toNat

/-- The method `Array.prototype.sort(cmp)`: a stable sort (ECMAScript 2019) that puts `a`
before `b` when `cmp a b` is negative and keeps the given order when it is zero. -/
def arraySort {α : Type} (cmp : α → α → ℚ) (xs : List α) : List α :=
  xs.insertionSort (fun a b => cmp a b ≤ 0)

/-! ## Query engine -/

/-- The function `filterProducts` (lines 169-179). -/
def filterProducts (toLowerCase : String → String) (s : State) : List Product :=
  s.products.filter (fun product =>
    let matchesSearch :=
      includes (toLowerCase product.title) (toLowerCase s.filters.search) ||
      includes (toLowerCase product.description) (toLowerCase s.filters.search) ||
      includes (toLowerCase product.category) (toLowerCase s.filters.search)
    let matchesCategory := s.filters.category == "" || product.category == s.filters.category
    matchesSearch && matchesCategory)

/-- The function `sortProducts` returns a fresh array; this record holds the contents of
the argument array after the call next to the returned array. -/
structure SortOutcome where
  argument : List Product
  result : List Product
deriving DecidableEq

/-- The function `sortProducts` (lines 181-199): `[...products]` copies the argument, and
`sort` reorders the copy in place and returns it. -/
def sortProducts (s : State) (products : List Product) : SortOutcome :=
  let sortedProducts := products
  if s.filters.sort = "price-low" then
    { argument := products, result := arraySort (fun a b => a.price - b.price) sortedProducts }
  else if s.filters.sort = "price-high" then
    { argument := products, result := arraySort (fun a b => b.price - a.price) sortedProducts }
  else if s.filters.sort = "rating" then
    { argument := products, result := arraySort (fun a b => b.rating - a.rating) sortedProducts }
  else
    { argument := products, result := sortedProducts }

/-- The function `paginateProducts` (lines 201-205). -/
def paginateProducts (s : State) (products : List Product) : List Product :=
  let startIndex : Int := (s.currentPage - 1) * s.productsPerPage
  let endIndex : Int := startIndex + s.productsPerPage
  arraySlice products startIndex endIndex

/-- The constant `totalPages` of `updatePagination` (line 524):
`Math.ceil(totalProducts / state.productsPerPage)`. -/
def totalPages (s : State) (totalProducts : Nat) : Int :=
  Int.ceil ((totalProducts : ℚ) / (s.productsPerPage : ℚ))

/-- The page numbers `Array.from({ length: totalPages }, (_, i) => i + 1)` for which
`updatePagination` draws a button (line 530). -/
def pageNumbers (s : State) (totalProducts : Nat) : List Int :=
  (List.range (totalPages s totalProducts).toNat).map (fun (i : Nat) => (i : Int) + 1)

/-! ## Page effects -/

/-- The `type` argument of `showToast`. -/
inductive ToastKind where
  | success
  | error
deriving DecidableEq

/-- The texts handed to `showToast`, with the value interpolated into each. -/
inductive Message where
  | addedToCart (title : String)
  | cartEmpty
  | orderPlaced (totalAmount : ℚ)
  | itemRemoved
  | removedFromWishlist
  | addedToWishlist
deriving DecidableEq

/-- What a handler writes to the page, one entry per write, in program order. -/
inductive Effect where
  | toast (message : Message) (kind : ToastKind)
  | cartCount (totalItems : Int)
  | cartTotal (total : ℚ)
  | closeCartModal
  | confirmation (totalItems : Int) (totalAmount : ℚ) (orderClock : Nat)
  | wishlistCount (count : Nat)
  | renderProducts
  | renderWishlist
deriving DecidableEq

/-- The call `showToast(message, type)`; a call site that omits `type` passes the default
`success`. -/
def showToast (message : Message) (kind : ToastKind) : Effect :=
  Effect.toast message kind

/-! ## Query-parameter setters -/

/-- The handler `handleSearch` (lines 208-212); `value` is `event.target.value`. -/
def handleSearch (s : State) (value : String) : State × List Effect :=
  let s1 := { s with filters := { s.filters with search := value } }
  let s2 := { s1 with currentPage := 1 }
  (s2, [Effect.renderProducts])

/-- The handler `handleFilterChange` (lines 214-218). -/
def handleFilterChange (s : State) (value : String) : State × List Effect :=
  let s1 := { s with filters := { s.filters with category := value } }
  let s2 := { s1 with currentPage := 1 }
  (s2, [Effect.renderProducts])

/-- The handler `handleSortChange` (lines 220-225). -/
def handleSortChange (s : State) (value : String) : State × List Effect :=
  let s1 := { s with filters := { s.filters with sort := value } }
  (s1, [Effect.renderProducts])

/-! ## Cart -/

/-- Assignment through the reference `find` returned: the first element satisfying `p` is
replaced by `f` of it, in place. -/
def updateFirst {α : Type} (p : α → Bool) (f : α → α) : List α → List α
  | [] => []
  | x :: xs => if p x then f x :: xs else x :: updateFirst p f xs

/-- The count `totalItems` of `updateCartBadge` (lines 244-247), written to the cart badge. -/
def updateCartBadge (s : State) : Int :=
  s.cart.foldl (fun sum item => sum + item.quantity) 0

/-- The value `total` of `renderCart` (lines 266-306), written to the cart total. -/
def renderCart (s : State) : ℚ :=
  if s.cart.length = 0 then 0
  else
    s.cart.foldl (fun total item =>
      match arrayFind (fun p => p.id == item.id) s.products with
      | none => total
      | some product => total + product.price * (item.quantity : ℚ)) 0

/-- The function `addToCart` (lines 228-242). -/
def addToCart (s : State) (productId : Nat) : State × List Effect :=
  match arrayFind (fun p => p.id == productId) s.products with
  | none => (s, [])
  | some product =>
    let cart :=
      match arrayFind (fun item => item.id == productId) s.cart with
      | some _ =>
        updateFirst (fun item => item.id == productId)
          (fun cartItem => { cartItem with quantity := cartItem.quantity + 1 }) s.cart
      | none => s.cart ++ [{ product := product, quantity := 1 }]
    let s1 := { s with cart := cart }
    (s1, [Effect.cartCount (updateCartBadge s1), showToast (Message.addedToCart product.title) ToastKind.success])

/-- The function `removeFromCart` (lines 390-395). -/
def removeFromCart (s : State) (productId : Nat) : State × List Effect :=
  let s1 := { s with cart := s.cart.filter (fun item => item.id != productId) }
  (s1, [Effect.cartTotal (renderCart s1), Effect.cartCount (updateCartBadge s1),
        showToast Message.itemRemoved ToastKind.success])

/-- The function `updateCartItem` (lines 376-388). -/
def updateCartItem (s : State) (productId : Nat) (newQuantity : Int) : State × List Effect :=
  if newQuantity ≤ 0 then removeFromCart s productId
  else
    match arrayFind (fun item => item.id == productId) s.cart with
    | some _ =>
      let cart :=
        updateFirst (fun item => item.id == productId)
          (fun cartItem => { cartItem with quantity := newQuantity }) s.cart
      let s1 := { s with cart := cart }
      (s1, [Effect.cartTotal (renderCart s1), Effect.cartCount (updateCartBadge s1)])
    | none => (s, [])

/-- The function `handleCheckout` (lines 308-348); `now` is the reading of `Date.now()`
from which `generateOrderId` builds the order id. -/
def handleCheckout (now : Nat) (s : State) : State × List Effect :=
  if s.cart.length = 0 then (s, [showToast Message.cartEmpty ToastKind.error])
  else
    let totalItems := s.cart.foldl (fun sum item => sum + item.quantity) 0
    let totalAmount := s.cart.foldl (fun sum item => sum + item.price * (item.quantity : ℚ)) 0
    let s1 := { s with cart := [] }
    (s1, [showToast (Message.orderPlaced totalAmount) ToastKind.success,
          Effect.cartCount (updateCartBadge s1), Effect.closeCartModal,
          Effect.confirmation totalItems totalAmount now])

/-! ## Wishlist -/

/-- The method `Set.prototype.has`. -/
def setHas (set : Finset Nat) (x : Nat) : Bool := decide (x ∈ set)

/-- The method `Set.prototype.delete`. -/
def setDelete (set : Finset Nat) (x : Nat) : Finset Nat := set.erase x

/-- The method `Set.prototype.add`. -/
def setAdd (set : Finset Nat) (x : Nat) : Finset Nat := insert x set

/-- The getter `Set.prototype.size`. -/
def setSize (set : Finset Nat) : Nat := set.card

/-- The function `toggleWishlist` (lines 447-464); `wishlistShown` is whether
`elements.wishlistPage.style.display` is `'block'`. -/
def toggleWishlist (wishlistShown : Bool) (s : State) (productId : Nat) : State × List Effect :=
  let step : State × Effect :=
    if setHas s.wishlist productId then
      ({ s with wishlist := setDelete s.wishlist productId },
        showToast Message.removedFromWishlist ToastKind.error)
    else
      ({ s with wishlist := setAdd s.wishlist productId },
        showToast Message.addedToWishlist ToastKind.success)
  (step.1, [step.2, Effect.wishlistCount (setSize step.1.wishlist),
            if wishlistShown then Effect.renderWishlist else Effect.renderProducts])

/-! ## Runs of cart operations -/

/-- A cart command of the user interface. -/
inductive CartOp where
  | add (productId : Nat)
  | update (productId : Nat) (newQuantity : Int)
  | remove (productId : Nat)
deriving DecidableEq

/-- The state after one cart command. -/
def applyCartOp (s : State) : CartOp → State
  | CartOp.add productId => (addToCart s productId).1
  | CartOp.update productId newQuantity => (updateCartItem s productId newQuantity).1
  | CartOp.remove productId => (removeFromCart s productId).1

/-- The state after a sequence of cart commands, run left to right. -/
def runCartOps (s : State) (ops : List CartOp) : State := ops.foldl applyCartOp s

/-- The cart invariant: every line has a positive quantity and no two lines share an id. -/
def cartInvariant (cart : List CartItem) : Prop :=
  (∀ item ∈ cart, 0 < item.quantity) ∧ (cart.map CartItem.id).Nodup

/-! ## Specification-side definitions and examples -/

/-- The keep-predicate of the filter step, in the words of the specification. -/
def keepSpec (toLowerCase : String → String) (search category : String) (p : Product) : Prop :=
  (search = "" ∨
    (toLowerCase search).data <:+: (toLowerCase p.title).data ∨
    (toLowerCase search).data <:+: (toLowerCase p.description).data ∨
    (toLowerCase search).data <:+: (toLowerCase p.category).data) ∧
  (category = "" ∨ p.category = category)

instance keepSpecDecidable (toLowerCase : String → String) (search category : String)
    (p : Product) : Decidable (keepSpec toLowerCase search category p) := by
  unfold keepSpec; infer_instance

/-- ASCII lower-casing, an instance of the `toLowerCase` parameter used in examples. -/
def asciiLower (s : String) : String := String.mk (s.data.map Char.toLower)

/-- An example product with the given id, price and category. -/
def exampleProduct (id : Nat) (price : ℚ) (category : String) : Product :=
  { id := id, title := "Item", description := "An item", category := category, price := price,
    discountPercentage := 0, rating := 4, stock := 1, brand := "brand", thumbnail := "",
    images := [] }

/-- The example catalog of the specification: `[{id:1,price:10,category:"a"},
{id:2,price:5,category:"b"}]`. -/
def exampleCatalog : List Product := [exampleProduct 1 10 "a", exampleProduct 2 5 "b"]

/-- The initial state with the example catalog loaded. -/
def exampleState : State := { initialState with products := exampleCatalog }

/-- The example state with the sort mode `price-low` selected. -/
def exampleSortState : State :=
  { exampleState with filters := { exampleState.filters with sort := "price-low" } }

/-- The example state after `addToCart(1); addToCart(1)`. -/
def exampleCartState : State := runCartOps exampleState [CartOp.add 1, CartOp.add 1]

/-- The catalog product a cart line resolves to: the first product carrying the line's id. -/
def resolve (catalog : List Product) (item : CartItem) : Option Product :=
  catalog.find? (fun p => decide (p.id = item.id))

/-- The cart total in the words of the specification: price times quantity, summed over the
lines that resolve in the catalog. -/
def cartTotalSpec (catalog : List Product) (cart : List CartItem) : ℚ :=
  (cart.filterMap (fun item =>
    (resolve catalog item).map (fun p => p.price * (item.quantity : ℚ)))).sum

/-- The cart item count in the words of the specification: the sum of the quantities. -/
def cartItemCountSpec (cart : List CartItem) : Int := (cart.map CartItem.quantity).sum

/-- The example state with page 2 on display. -/
def examplePagedState : State := { exampleState with currentPage := 2 }

/-- The order amount in the words of the specification: the price stored in each cart line
times the line's quantity, summed over the lines. -/
def checkoutAmountSpec (cart : List CartItem) : ℚ :=
  (cart.map (fun item => item.price * (item.quantity : ℚ))).sum

/-! ## Start-up -/

/-- The ways the catalog fetch of `fetchProducts` fails: `fetch` rejects, the response is
not `ok`, or `response.json()` rejects. -/
inductive FetchFailure where
  | network
  | notOk
  | parse
deriving DecidableEq

/-- The outcome of the catalog fetch: the array `data.products`, or a failure. -/
inductive FetchOutcome where
  | ok (products : List Product)
  | failed (kind : FetchFailure)
deriving DecidableEq

/-- The two texts handed to `showError`: the one of `fetchProducts` (line 115) and the one of
`initialize` (line 90). -/
inductive ErrorText where
  | fetchFailed
  | initializeFailed
deriving DecidableEq

/-- A child of `elements.productsContainer`: the loading spinner, the error placeholder
with its retry button, or a product card. -/
inductive Node where
  | loadingSpinner
  | errorMessage (text : ErrorText)
  | productCard (product : Product)
deriving DecidableEq

/-- The parts of the page the start-up sequence writes: the children of the products
container, the values of the category options, and the numbered page buttons. -/
structure View where
  productsContainer : List Node
  categoryOptions : List String
  paginationPages : List Int
deriving DecidableEq

/-- The function `showLoading` (lines 546-551). -/
def showLoading (v : View) : View :=
  { v with productsContainer := [] ++ [Node.loadingSpinner] }

/-- The function `hideLoading` (lines 553-556): the first spinner, if any, is removed. -/
def hideLoading (v : View) : View :=
  { v with productsContainer := v.productsContainer.erase Node.loadingSpinner }

/-- The function `showError` (lines 558-571). -/
def showError (text : ErrorText) (v : View) : View :=
  { v with productsContainer := [] ++ [Node.errorMessage text] }

/-- The function `populateCategories` (lines 515-521): the option `All Categories` with the
empty value, then one option per distinct category in first-seen order. -/
def populateCategories (s : State) (v : View) : View :=
  let categories := (s.products.map (fun product => product.category)).eraseDups
  { v with categoryOptions := "" :: categories }

/-- The function `renderProducts` (lines 122-135) with the `updatePagination` it ends on. -/
def renderProducts (toLowerCase : String → String) (s : State) (v : View) : View :=
  let filteredProducts := filterProducts toLowerCase s
  let sortedProducts := (sortProducts s filteredProducts).result
  let paginatedProducts := paginateProducts s sortedProducts
  let v1 := { v with productsContainer := [] }
  let v2 := { v1 with
    productsContainer := v1.productsContainer ++ paginatedProducts.map Node.productCard }
  { v2 with paginationPages := pageNumbers s sortedProducts.length }

/-- The function `fetchProducts` (lines 96-119): on success the catalog is stored and
returned; on failure the `catch` shows the error placeholder and returns `[]`, so the
promise resolves either way. -/
def fetchProducts (outcome : FetchOutcome) (s : State) (v : View) :
    State × View × List Product :=
  match outcome with
  | FetchOutcome.ok products => ({ s with products := products }, v, products)
  | FetchOutcome.failed _ => (s, showError ErrorText.fetchFailed v, [])

/-- The function `initialize` (lines 82-93), under the name of its source comment because
`initialize` is a reserved word.  No step of the `try` block throws here (`fetchProducts`
resolves either way), so the `catch` of `initialize` is not entered. -/
def initApplication (toLowerCase : String → String) (outcome : FetchOutcome) (s : State)
    (v : View) : State × View :=
  let v1 := showLoading v
  let fetched := fetchProducts outcome s v1
  let s2 := fetched.1
  let v2 := fetched.2.1
  let v3 := populateCategories s2 v2
  let v4 := renderProducts toLowerCase s2 v3
  let v5 := hideLoading v4
  (s2, v5)

/-- The page before the script has written to it. -/
def emptyView : View := { productsContainer := [], categoryOptions := [], paginationPages := [] }

/-! ## Runs of cart operations with checkout -/

/-- A cart command of the user interface, checkout included; `now` is the clock reading
the order id is built from. -/
inductive SessionOp where
  | add (productId : Nat)
  | update (productId : Nat) (newQuantity : Int)
  | remove (productId : Nat)
  | checkout (now : Nat)
deriving DecidableEq

/-- The state after one command. -/
def applySessionOp (s : State) : SessionOp → State
  | SessionOp.add productId => (addToCart s productId).1
  | SessionOp.update productId newQuantity => (updateCartItem s productId newQuantity).1
  | SessionOp.remove productId => (removeFromCart s productId).1
  | SessionOp.checkout now => (handleCheckout now s).1

/-- The state after a sequence of commands, run left to right. -/
def runSessionOps (s : State) (ops : List SessionOp) : State := ops.foldl applySessionOp s

/-- The state reached over the catalog `catalog` from the empty cart by `ops`. -/
def sessionAfter (s : State) (catalog : List Product) (ops : List SessionOp) : State :=
  runSessionOps { s with products := catalog, cart := [] } ops

/-- Every cart line looks up, by its id, the catalog product it was copied from. -/
def cartResolves (s : State) : Prop :=
  ∀ item ∈ s.cart, arrayFind (fun p => p.id == item.id) s.products = some item.product

/-- A catalog in which two products share the id 1 at different prices. -/
def duplicateIdCatalog : List Product :=
  [exampleProduct 1 10 "a", exampleProduct 1 7 "b", exampleProduct 2 5 "b"]

/-! ## Theorems -/

theorem includes_iff (s sub : String) : includes s sub = true ↔ sub.data <:+: s.data := by
  unfold includes
  simp only [List.any_eq_true, List.mem_tails, List.isPrefixOf_iff_prefix]
  constructor
  · rintro ⟨t, ht, hp⟩
    exact hp.isInfix.trans ht.isInfix
  · rintro ⟨a, b, h⟩
    exact ⟨sub.data ++ b, ⟨a, by simpa [List.append_assoc] using h⟩, List.prefix_append _ _⟩

theorem includes_empty (s : String) : includes s "" = true := by
  rw [includes_iff]
  exact ⟨[], s.data, by simp⟩

/-- C1: `filterProducts` returns exactly the catalog products, in catalog order, for which
(the search text is empty or its lower-cased form occurs in the lower-cased title,
description or category) and (the category filter is empty or equals the product's
category); here `toLowerCase` maps the empty string to the empty string. -/
theorem filterProducts_spec (toLowerCase : String → String) (hlow : toLowerCase "" = "")
    (s : State) :
    filterProducts toLowerCase s =
      s.products.filter (fun p => decide (keepSpec toLowerCase s.filters.search s.filters.category p)) ∧
    (∀ p, p ∈ filterProducts toLowerCase s ↔
      p ∈ s.products ∧ keepSpec toLowerCase s.filters.search s.filters.category p) ∧
    (filterProducts toLowerCase s).Sublist s.products := by
  have key : filterProducts toLowerCase s =
      s.products.filter (fun p => decide (keepSpec toLowerCase s.filters.search s.filters.category p)) := by
    unfold filterProducts
    apply List.filter_congr
    intro p _
    rw [Bool.eq_iff_iff]
    by_cases hs : s.filters.search = ""
    · simp [keepSpec, hs, hlow, includes_empty]
    · simp [keepSpec, hs, includes_iff, or_assoc]
  refine ⟨key, ?_, ?_⟩
  · intro p
    rw [key]
    simp [List.mem_filter]
  · rw [key]
    exact List.filter_sublist _

/-- An instance of `filterProducts_spec`: ASCII lower-casing on the example catalog. -/
theorem filterProducts_spec_witness :
    asciiLower "" = "" ∧
    (filterProducts asciiLower exampleState =
      exampleState.products.filter (fun p =>
        decide (keepSpec asciiLower exampleState.filters.search exampleState.filters.category p)) ∧
    (∀ p, p ∈ filterProducts asciiLower exampleState ↔
      p ∈ exampleState.products ∧
        keepSpec asciiLower exampleState.filters.search exampleState.filters.category p) ∧
    (filterProducts asciiLower exampleState).Sublist exampleState.products) :=
  ⟨by decide, filterProducts_spec asciiLower (by decide) exampleState⟩



theorem arraySort_perm {α : Type} (cmp : α → α → ℚ) (xs : List α) :
    (arraySort cmp xs).Perm xs :=
  List.perm_insertionSort _ xs

theorem arraySort_sorted {α : Type} (cmp : α → α → ℚ)
    (htotal : ∀ a b, cmp a b ≤ 0 ∨ cmp b a ≤ 0)
    (htrans : ∀ a b c, cmp a b ≤ 0 → cmp b c ≤ 0 → cmp a c ≤ 0) (xs : List α) :
    (arraySort cmp xs).Pairwise (fun a b => cmp a b ≤ 0) := by
  haveI : IsTotal α (fun a b => cmp a b ≤ 0) := ⟨htotal⟩
  haveI : IsTrans α (fun a b => cmp a b ≤ 0) := ⟨htrans⟩
  exact List.sorted_insertionSort (fun a b => cmp a b ≤ 0) xs

theorem filter_orderedInsert {α : Type} (r : α → α → Prop) [DecidableRel r] (q : α → Bool)
    (hq : ∀ a b, q a = true → q b = true → r a b) (a : α) (l : List α) :
    (l.orderedInsert r a).filter q = (a :: l).filter q := by
  induction l with
  | nil => simp
  | cons b l ih =>
    by_cases hab : r a b
    · simp [List.orderedInsert, hab]
    · have hne : ¬ (q a = true ∧ q b = true) := fun h => hab (hq a b h.1 h.2)
      simp only [List.orderedInsert, hab, if_false, List.filter_cons, ih]
      by_cases ha : q a = true <;> by_cases hb : q b = true <;> simp_all

theorem arraySort_stable {α : Type} (cmp : α → α → ℚ) (q : α → Bool)
    (hq : ∀ a b, q a = true → q b = true → cmp a b ≤ 0) (xs : List α) :
    (arraySort cmp xs).filter q = xs.filter q := by
  induction xs with
  | nil => rfl
  | cons a l ih =>
    have h := filter_orderedInsert (fun a b => cmp a b ≤ 0) q hq a
      (l.insertionSort (fun a b => cmp a b ≤ 0))
    unfold arraySort at ih ⊢
    rw [List.insertionSort, h, List.filter_cons, List.filter_cons, ih]

/-- C2: `sortProducts` leaves its argument array as it was and returns a permutation of
it; for `price-low` the result is ordered by ascending price, for `price-high` by
descending price, for `rating` by descending rating, and in each of these the products
sharing any one key value appear in their input order; for every other mode the result is
the input sequence. -/
theorem sortProducts_spec (s : State) (products : List Product) :
    (sortProducts s products).argument = products ∧
    (sortProducts s products).result.Perm products ∧
    (s.filters.sort = "price-low" →
      (sortProducts s products).result.Pairwise (fun a b => a.price ≤ b.price) ∧
      ∀ k : ℚ, (sortProducts s products).result.filter (fun p => decide (p.price = k)) =
        products.filter (fun p => decide (p.price = k))) ∧
    (s.filters.sort = "price-high" →
      (sortProducts s products).result.Pairwise (fun a b => b.price ≤ a.price) ∧
      ∀ k : ℚ, (sortProducts s products).result.filter (fun p => decide (p.price = k)) =
        products.filter (fun p => decide (p.price = k))) ∧
    (s.filters.sort = "rating" →
      (sortProducts s products).result.Pairwise (fun a b => b.rating ≤ a.rating) ∧
      ∀ k : ℚ, (sortProducts s products).result.filter (fun p => decide (p.rating = k)) =
        products.filter (fun p => decide (p.rating = k))) ∧
    (s.filters.sort ≠ "price-low" → s.filters.sort ≠ "price-high" → s.filters.sort ≠ "rating" →
      (sortProducts s products).result = products) := by
  refine ⟨?_, ?_, ?_, ?_, ?_, ?_⟩
  · unfold sortProducts; split_ifs <;> rfl
  · unfold sortProducts; split_ifs <;> first | exact arraySort_perm _ _ | exact List.Perm.refl _
  · intro h
    have e : (sortProducts s products).result =
        arraySort (fun a b => a.price - b.price) products := by
      simp [sortProducts, h]
    rw [e]
    refine ⟨?_, fun k => ?_⟩
    · refine (arraySort_sorted (fun a b : Product => a.price - b.price) ?_ ?_ products).imp ?_
      · intro a b; dsimp only; rcases le_total a.price b.price with h1 | h1
        · left; linarith
        · right; linarith
      · intro a b c h1 h2; dsimp only at h1 h2 ⊢; linarith
      · intro a b h1; linarith
    · apply arraySort_stable
      intro a b ha hb
      simp only [decide_eq_true_eq] at ha hb
      rw [ha, hb]; simp
  · intro h
    have e : (sortProducts s products).result =
        arraySort (fun a b => b.price - a.price) products := by
      simp [sortProducts, h]
    rw [e]
    refine ⟨?_, fun k => ?_⟩
    · refine (arraySort_sorted (fun a b : Product => b.price - a.price) ?_ ?_ products).imp ?_
      · intro a b; dsimp only; rcases le_total a.price b.price with h1 | h1
        · right; linarith
        · left; linarith
      · intro a b c h1 h2; dsimp only at h1 h2 ⊢; linarith
      · intro a b h1; linarith
    · apply arraySort_stable
      intro a b ha hb
      simp only [decide_eq_true_eq] at ha hb
      rw [ha, hb]; simp
  · intro h
    have e : (sortProducts s products).result =
        arraySort (fun a b => b.rating - a.rating) products := by
      simp [sortProducts, h]
    rw [e]
    refine ⟨?_, fun k => ?_⟩
    · refine (arraySort_sorted (fun a b : Product => b.rating - a.rating) ?_ ?_ products).imp ?_
      · intro a b; dsimp only; rcases le_total a.rating b.rating with h1 | h1
        · right; linarith
        · left; linarith
      · intro a b c h1 h2; dsimp only at h1 h2 ⊢; linarith
      · intro a b h1; linarith
    · apply arraySort_stable
      intro a b ha hb
      simp only [decide_eq_true_eq] at ha hb
      rw [ha, hb]; simp
  · intro h1 h2 h3
    simp [sortProducts, h1, h2, h3]

/-- An instance of `sortProducts_spec`: the example catalog sorted with `price-low`. -/
theorem sortProducts_spec_witness :
    exampleSortState.filters.sort = "price-low" ∧
    ((sortProducts exampleSortState exampleCatalog).result.Pairwise
        (fun a b => a.price ≤ b.price) ∧
      ∀ k : ℚ,
        (sortProducts exampleSortState exampleCatalog).result.filter
            (fun p => decide (p.price = k)) =
          exampleCatalog.filter (fun p => decide (p.price = k))) :=
  ⟨by decide, (sortProducts_spec exampleSortState exampleCatalog).2.2.1 (by decide)⟩

theorem arraySlice_nat {α : Type} (xs : List α) (a b : Nat) :
    arraySlice xs (a : Int) ((a : Int) + (b : Int)) = (xs.drop a).take b := by
  unfold arraySlice
  have h1 : ¬ ((a : Int) < 0) := by omega
  have h2 : ¬ ((a : Int) + (b : Int) < 0) := by omega
  simp only [h1, h2, if_false]
  rcases Nat.lt_or_ge xs.length a with h | h
  · have e1 : (min (a : Int) (xs.length : Int)).toNat = xs.length := by omega
    rw [e1, List.drop_of_length_le (le_refl _), List.drop_of_length_le (le_of_lt h)]
    simp
  · have e1 : (min (a : Int) (xs.length : Int)).toNat = a := by omega
    have e2 : (min ((a : Int) + (b : Int)) (xs.length : Int) - min (a : Int) (xs.length : Int)).toNat
        = min b (xs.length - a) := by omega
    rw [e1, e2, List.take_eq_take]
    simp

theorem arraySlice_length_le {α : Type} (xs : List α) (a : Int) (b : Nat) :
    (arraySlice xs a (a + (b : Int))).length ≤ b := by
  unfold arraySlice
  simp only [List.length_take, List.length_drop]
  split_ifs <;> omega

theorem paginateProducts_nat (s : State) (products : List Product) (i : Nat) :
    paginateProducts { s with currentPage := (i : Int) + 1 } products =
      (products.drop (i * s.productsPerPage)).take s.productsPerPage := by
  unfold paginateProducts
  have e : ((i : Int) + 1 - 1) * (s.productsPerPage : Int) = ((i * s.productsPerPage : Nat) : Int) := by
    push_cast; ring
  simp only [e]
  exact arraySlice_nat products (i * s.productsPerPage) s.productsPerPage

theorem pages_flatten (s : State) (products : List Product) (n : Nat) :
    ((List.range n).map (fun (i : Nat) => (i : Int) + 1)).flatMap
        (fun page => paginateProducts { s with currentPage := page } products) =
      products.take (n * s.productsPerPage) := by
  induction n with
  | zero => simp
  | succ n ih =>
    rw [List.range_succ, List.map_append, List.flatMap_append, ih]
    simp only [List.map_cons, List.map_nil, List.flatMap_cons, List.flatMap_nil,
      List.append_nil]
    rw [paginateProducts_nat, Nat.succ_mul, List.take_add]

theorem totalPages_nonneg (s : State) (n : Nat) : 0 ≤ totalPages s n := by
  unfold totalPages
  exact Int.ceil_nonneg (by positivity)

theorem totalPages_mul_ge (s : State) (n : Nat) (hp : 0 < s.productsPerPage) :
    (n : Int) ≤ totalPages s n * (s.productsPerPage : Int) := by
  have hq : (0 : ℚ) < (s.productsPerPage : ℚ) := by exact_mod_cast hp
  have h := Int.le_ceil ((n : ℚ) / (s.productsPerPage : ℚ))
  rw [div_le_iff₀ hq] at h
  unfold totalPages
  exact_mod_cast h

/-- C3: for a positive page size, the pages `1 .. totalPages` concatenated give back the
sequence, every page has at most `productsPerPage` elements, and every page after
`totalPages` is empty. -/
theorem paginateProducts_cover (s : State) (products : List Product)
    (hp : 0 < s.productsPerPage) :
    (pageNumbers s products.length).flatMap
        (fun page => paginateProducts { s with currentPage := page } products) = products ∧
    (∀ page : Int,
      (paginateProducts { s with currentPage := page } products).length ≤ s.productsPerPage) ∧
    (∀ page : Int, totalPages s products.length < page →
      paginateProducts { s with currentPage := page } products = []) := by
  have hge := totalPages_mul_ge s products.length hp
  have hnn := totalPages_nonneg s products.length
  refine ⟨?_, ?_, ?_⟩
  · unfold pageNumbers
    rw [pages_flatten]
    apply List.take_of_length_le
    have h2 : ((totalPages s products.length).toNat : Int) = totalPages s products.length :=
      Int.toNat_of_nonneg hnn
    have h3 : (products.length : Int) ≤
        (((totalPages s products.length).toNat * s.productsPerPage : Nat) : Int) := by
      push_cast; rw [h2]; exact hge
    exact_mod_cast h3
  · intro page
    unfold paginateProducts
    exact arraySlice_length_le products _ s.productsPerPage
  · intro page hlt
    obtain ⟨i, hi⟩ : ∃ i : Nat, page = (i : Int) + 1 := ⟨(page - 1).toNat, by omega⟩
    subst hi
    rw [paginateProducts_nat]
    have h3 : (products.length : Int) ≤ ((i * s.productsPerPage : Nat) : Int) := by
      push_cast
      have : totalPages s products.length ≤ (i : Int) := by omega
      calc (products.length : Int) ≤ totalPages s products.length * (s.productsPerPage : Int) := hge
        _ ≤ (i : Int) * (s.productsPerPage : Int) :=
          mul_le_mul_of_nonneg_right this (by positivity)
    have h4 : products.length ≤ i * s.productsPerPage := by exact_mod_cast h3
    rw [List.drop_of_length_le h4]
    simp

/-- An instance of `paginateProducts_cover`: the example catalog at ten products a page. -/
theorem paginateProducts_cover_witness :
    0 < exampleState.productsPerPage ∧
    ((pageNumbers exampleState exampleCatalog.length).flatMap
        (fun page => paginateProducts { exampleState with currentPage := page } exampleCatalog) =
      exampleCatalog ∧
    (∀ page : Int,
      (paginateProducts { exampleState with currentPage := page } exampleCatalog).length ≤
        exampleState.productsPerPage) ∧
    (∀ page : Int, totalPages exampleState exampleCatalog.length < page →
      paginateProducts { exampleState with currentPage := page } exampleCatalog = [])) :=
  ⟨by decide, paginateProducts_cover exampleState exampleCatalog (by decide)⟩

theorem arrayFind_eq_some {α : Type} (p : α → Bool) (xs : List α) (x : α)
    (h : arrayFind p xs = some x) :
    ∃ pre post, xs = pre ++ x :: post ∧ (∀ y ∈ pre, p y = false) ∧ p x = true := by
  unfold arrayFind at h
  obtain ⟨hx, pre, post, hxs, hpre⟩ := List.find?_eq_some.mp h
  exact ⟨pre, post, hxs, fun y hy => by simpa using hpre y hy, hx⟩

theorem arrayFind_eq_none {α : Type} (p : α → Bool) (xs : List α) :
    arrayFind p xs = none ↔ ∀ y ∈ xs, p y = false := by
  unfold arrayFind
  simp

theorem arrayFind_isSome {α : Type} (p : α → Bool) (xs : List α) (y : α) (hy : y ∈ xs)
    (hp : p y = true) : ∃ x, arrayFind p xs = some x := by
  cases h : arrayFind p xs with
  | some x => exact ⟨x, rfl⟩
  | none =>
    have := (arrayFind_eq_none p xs).mp h y hy
    rw [hp] at this
    cases this

theorem updateFirst_append {α : Type} (p : α → Bool) (f : α → α) (pre post : List α) (x : α)
    (hpre : ∀ y ∈ pre, p y = false) (hx : p x = true) :
    updateFirst p f (pre ++ x :: post) = pre ++ f x :: post := by
  induction pre with
  | nil => simp [updateFirst, hx]
  | cons a pre ih =>
    have ha : p a = false := hpre a (List.mem_cons_self _ _)
    have ih2 := ih (fun y hy => hpre y (List.mem_cons_of_mem _ hy))
    simp [updateFirst, ha, ih2]

theorem updateFirst_map_id (p : CartItem → Bool) (f : CartItem → CartItem)
    (hf : ∀ x, (f x).id = x.id) (l : List CartItem) :
    (updateFirst p f l).map CartItem.id = l.map CartItem.id := by
  induction l with
  | nil => rfl
  | cons a l ih =>
    unfold updateFirst
    split_ifs
    · simp [hf]
    · simp [ih]

theorem mem_updateFirst {α : Type} (p : α → Bool) (f : α → α) (l : List α) (y : α)
    (hy : y ∈ updateFirst p f l) : y ∈ l ∨ ∃ x ∈ l, y = f x := by
  induction l with
  | nil => simp [updateFirst] at hy
  | cons a l ih =>
    unfold updateFirst at hy
    split_ifs at hy
    · rcases List.mem_cons.mp hy with h | h
      · exact Or.inr ⟨a, List.mem_cons_self _ _, h⟩
      · exact Or.inl (List.mem_cons_of_mem _ h)
    · rcases List.mem_cons.mp hy with h | h
      · exact Or.inl (h ▸ List.mem_cons_self _ _)
      · rcases ih h with h1 | ⟨x, hx, hfx⟩
        · exact Or.inl (List.mem_cons_of_mem _ h1)
        · exact Or.inr ⟨x, List.mem_cons_of_mem _ hx, hfx⟩

theorem cartInvariant_addToCart (s : State) (productId : Nat) (h : cartInvariant s.cart) :
    cartInvariant (addToCart s productId).1.cart := by
  unfold addToCart
  cases hprod : arrayFind (fun p => p.id == productId) s.products with
  | none => exact h
  | some product =>
    obtain ⟨_, _, _, _, hpid⟩ := arrayFind_eq_some _ _ _ hprod
    cases hline : arrayFind (fun item => item.id == productId) s.cart with
    | some line =>
      refine ⟨?_, ?_⟩
      · intro item hitem
        rcases mem_updateFirst _ _ _ _ hitem with h1 | ⟨x, hx, rfl⟩
        · exact h.1 item h1
        · have := h.1 x hx
          show 0 < x.quantity + 1
          omega
      · show ((updateFirst _ _ s.cart).map CartItem.id).Nodup
        rw [updateFirst_map_id]
        · exact h.2
        · intro x; rfl
    | none =>
      have hnone := (arrayFind_eq_none _ _).mp hline
      refine ⟨?_, ?_⟩
      · intro item hitem
        rcases List.mem_append.mp hitem with h1 | h1
        · exact h.1 item h1
        · simp only [List.mem_singleton] at h1
          subst h1
          show (0 : Int) < 1
          decide
      · show ((s.cart ++ [_]).map CartItem.id).Nodup
        rw [List.map_append, List.nodup_append]
        refine ⟨h.2, by simp, ?_⟩
        intro a ha hb
        simp only [List.map_cons, List.map_nil, List.mem_singleton] at hb
        obtain ⟨item, hitem, rfl⟩ := List.mem_map.mp ha
        have h1 := hnone item hitem
        have h2 : product.id = productId := by simpa using hpid
        have h3 : item.id = productId := by rw [hb]; exact h2
        simp [h3] at h1

theorem cartInvariant_removeFromCart (s : State) (productId : Nat) (h : cartInvariant s.cart) :
    cartInvariant (removeFromCart s productId).1.cart := by
  refine ⟨?_, ?_⟩
  · intro item hitem
    exact h.1 item (List.mem_of_mem_filter hitem)
  · exact h.2.sublist ((List.filter_sublist _).map _)

theorem cartInvariant_updateCartItem (s : State) (productId : Nat) (newQuantity : Int)
    (h : cartInvariant s.cart) :
    cartInvariant (updateCartItem s productId newQuantity).1.cart := by
  unfold updateCartItem
  split_ifs with hq
  · exact cartInvariant_removeFromCart s productId h
  · cases hline : arrayFind (fun item => item.id == productId) s.cart with
    | none => exact h
    | some line =>
      refine ⟨?_, ?_⟩
      · intro item hitem
        rcases mem_updateFirst _ _ _ _ hitem with h1 | ⟨x, hx, rfl⟩
        · exact h.1 item h1
        · show 0 < newQuantity
          omega
      · show ((updateFirst _ _ s.cart).map CartItem.id).Nodup
        rw [updateFirst_map_id]
        · exact h.2
        · intro x; rfl

theorem cartInvariant_applyCartOp (s : State) (op : CartOp) (h : cartInvariant s.cart) :
    cartInvariant (applyCartOp s op).cart := by
  cases op with
  | add productId => exact cartInvariant_addToCart s productId h
  | update productId newQuantity => exact cartInvariant_updateCartItem s productId newQuantity h
  | remove productId => exact cartInvariant_removeFromCart s productId h

theorem cartInvariant_runCartOps (ops : List CartOp) (s : State) (h : cartInvariant s.cart) :
    cartInvariant (runCartOps s ops).cart := by
  induction ops generalizing s with
  | nil => exact h
  | cons op ops ih => exact ih (applyCartOp s op) (cartInvariant_applyCartOp s op h)

theorem products_applyCartOp (s : State) (op : CartOp) :
    (applyCartOp s op).products = s.products := by
  cases op with
  | add productId =>
    simp only [applyCartOp, addToCart]
    cases arrayFind (fun p => p.id == productId) s.products <;> rfl
  | update productId newQuantity =>
    simp only [applyCartOp, updateCartItem, removeFromCart]
    split_ifs
    · rfl
    · cases arrayFind (fun item => item.id == productId) s.cart <;> rfl
  | remove productId => rfl

theorem products_runCartOps (ops : List CartOp) (s : State) :
    (runCartOps s ops).products = s.products := by
  induction ops generalizing s with
  | nil => rfl
  | cons op ops ih =>
    show (runCartOps (applyCartOp s op) ops).products = s.products
    rw [ih, products_applyCartOp]

/-- C4: from the empty cart, over any catalog, every sequence of `addToCart`,
`updateCartItem` (with any integer quantity) and `removeFromCart` calls leaves a cart in
which every line has a positive quantity and no two lines share a product id; the catalog
is the same throughout. -/
theorem cart_invariant_reachable (s : State) (catalog : List Product) (ops : List CartOp) :
    (∀ item ∈ (runCartOps { s with products := catalog, cart := [] } ops).cart,
      ¬ item.quantity ≤ 0) ∧
    ((runCartOps { s with products := catalog, cart := [] } ops).cart.map CartItem.id).Nodup ∧
    (runCartOps { s with products := catalog, cart := [] } ops).products = catalog := by
  have h := cartInvariant_runCartOps ops { s with products := catalog, cart := [] }
    ⟨by simp, by simp⟩
  refine ⟨fun item hitem => ?_, h.2, products_runCartOps ops _⟩
  have := h.1 item hitem
  omega

/-- C5: `addToCart` on an id no catalog product has returns the state as it was and emits
nothing; on an id the catalog has, with `product` the first catalog product of that id:
when the cart has a line of that id, the first such line gets its quantity raised by one
and every other line stays in place; when it has none, the line `{ ...product, quantity:
1 }` is appended; in both cases the badge and a success toast follow. -/
theorem addToCart_spec (s : State) (productId : Nat) :
    ((∀ p ∈ s.products, p.id ≠ productId) → addToCart s productId = (s, [])) ∧
    ((∃ p ∈ s.products, p.id = productId) →
      ∃ cpre product cpost, s.products = cpre ++ product :: cpost ∧
        (∀ p ∈ cpre, p.id ≠ productId) ∧ product.id = productId ∧
        ((∃ l ∈ s.cart, l.id = productId) →
          ∃ pre line post, s.cart = pre ++ line :: post ∧
            (∀ l ∈ pre, l.id ≠ productId) ∧ line.id = productId ∧
            (addToCart s productId).1 =
              { s with cart := pre ++ { line with quantity := line.quantity + 1 } :: post }) ∧
        ((∀ l ∈ s.cart, l.id ≠ productId) →
          (addToCart s productId).1 =
            { s with cart := s.cart ++ [{ product := product, quantity := 1 }] }) ∧
        (addToCart s productId).2 =
          [Effect.cartCount (updateCartBadge (addToCart s productId).1),
           Effect.toast (Message.addedToCart product.title) ToastKind.success]) := by
  refine ⟨?_, ?_⟩
  · intro h
    have h1 : arrayFind (fun p => p.id == productId) s.products = none := by
      rw [arrayFind_eq_none]
      intro y hy
      simpa using h y hy
    simp [addToCart, h1]
  · rintro ⟨p, hp, hpid⟩
    obtain ⟨product, hprod⟩ := arrayFind_isSome (fun p => p.id == productId) s.products p hp
      (by simpa using hpid)
    obtain ⟨cpre, cpost, hsplit, hcpre, hproduct⟩ := arrayFind_eq_some _ _ _ hprod
    refine ⟨cpre, product, cpost, hsplit, fun q hq => by simpa using hcpre q hq,
      by simpa using hproduct, ?_, ?_, ?_⟩
    · rintro ⟨l, hl, hlid⟩
      obtain ⟨line, hline⟩ := arrayFind_isSome (fun item => item.id == productId) s.cart l hl
        (by simpa using hlid)
      obtain ⟨pre, post, hcart, hpre, hlineid⟩ := arrayFind_eq_some _ _ _ hline
      refine ⟨pre, line, post, hcart, fun q hq => by simpa using hpre q hq,
        by simpa using hlineid, ?_⟩
      simp only [addToCart, hprod, hline]
      rw [hcart, updateFirst_append _ _ _ _ _ hpre hlineid]
    · intro h
      have h1 : arrayFind (fun item => item.id == productId) s.cart = none := by
        rw [arrayFind_eq_none]
        intro y hy
        simpa using h y hy
      simp only [addToCart, hprod, h1]
    · simp only [addToCart, hprod, showToast]

/-- An instance of `addToCart_spec`: adding product 1 of the example catalog. -/
theorem addToCart_spec_witness :
    (∃ p ∈ exampleState.products, p.id = 1) ∧
    ∃ cpre product cpost, exampleState.products = cpre ++ product :: cpost ∧
      (∀ p ∈ cpre, p.id ≠ 1) ∧ product.id = 1 ∧
      ((∃ l ∈ exampleState.cart, l.id = 1) →
        ∃ pre line post, exampleState.cart = pre ++ line :: post ∧
          (∀ l ∈ pre, l.id ≠ 1) ∧ line.id = 1 ∧
          (addToCart exampleState 1).1 =
            { exampleState with
              cart := pre ++ { line with quantity := line.quantity + 1 } :: post }) ∧
      ((∀ l ∈ exampleState.cart, l.id ≠ 1) →
        (addToCart exampleState 1).1 =
          { exampleState with
            cart := exampleState.cart ++ [{ product := product, quantity := 1 }] }) ∧
      (addToCart exampleState 1).2 =
        [Effect.cartCount (updateCartBadge (addToCart exampleState 1).1),
         Effect.toast (Message.addedToCart product.title) ToastKind.success] :=
  ⟨⟨exampleProduct 1 10 "a", by decide, rfl⟩,
   (addToCart_spec exampleState 1).2 ⟨exampleProduct 1 10 "a", by decide, rfl⟩⟩

/-- C6: `updateCartItem` with a quantity at most zero is `removeFromCart` (same state, same
page writes); with a positive quantity it overwrites the quantity of the first line of
that id and keeps every other line, and when no line has that id it does nothing.  On the
example catalog, `addToCart(1); addToCart(1); updateCartItem(1,3)` gives the cart
`[{id:1, quantity:3}]`. -/
theorem updateCartItem_spec (s : State) (productId : Nat) (newQuantity : Int) :
    (newQuantity ≤ 0 → updateCartItem s productId newQuantity = removeFromCart s productId) ∧
    (0 < newQuantity → (∃ l ∈ s.cart, l.id = productId) →
      ∃ pre line post, s.cart = pre ++ line :: post ∧
        (∀ l ∈ pre, l.id ≠ productId) ∧ line.id = productId ∧
        (updateCartItem s productId newQuantity).1 =
          { s with cart := pre ++ { line with quantity := newQuantity } :: post }) ∧
    (0 < newQuantity → (∀ l ∈ s.cart, l.id ≠ productId) →
      updateCartItem s productId newQuantity = (s, [])) ∧
    (runCartOps exampleState [CartOp.add 1, CartOp.add 1, CartOp.update 1 3]).cart =
      [{ product := exampleProduct 1 10 "a", quantity := 3 }] := by
  refine ⟨?_, ?_, ?_, by decide⟩
  · intro h
    simp [updateCartItem, h]
  · rintro hq ⟨l, hl, hlid⟩
    have hq2 : ¬ newQuantity ≤ 0 := by omega
    obtain ⟨line, hline⟩ := arrayFind_isSome (fun item => item.id == productId) s.cart l hl
      (by simpa using hlid)
    obtain ⟨pre, post, hcart, hpre, hlineid⟩ := arrayFind_eq_some _ _ _ hline
    refine ⟨pre, line, post, hcart, fun q hq => by simpa using hpre q hq,
      by simpa using hlineid, ?_⟩
    simp only [updateCartItem, hq2, if_false, hline]
    rw [hcart, updateFirst_append _ _ _ _ _ hpre hlineid]
  · intro hq h
    have hq2 : ¬ newQuantity ≤ 0 := by omega
    have h1 : arrayFind (fun item => item.id == productId) s.cart = none := by
      rw [arrayFind_eq_none]
      intro y hy
      simpa using h y hy
    simp only [updateCartItem, hq2, if_false, h1]

/-- An instance of `updateCartItem_spec`: setting the quantity of product 1 to 3 after it
was added twice. -/
theorem updateCartItem_spec_witness :
    (0 : Int) < 3 ∧ (∃ l ∈ exampleCartState.cart, l.id = 1) ∧
    ∃ pre line post, exampleCartState.cart = pre ++ line :: post ∧
      (∀ l ∈ pre, l.id ≠ 1) ∧ line.id = 1 ∧
      (updateCartItem exampleCartState 1 3).1 =
        { exampleCartState with cart := pre ++ { line with quantity := 3 } :: post } :=
  ⟨by decide, ⟨{ product := exampleProduct 1 10 "a", quantity := 2 }, by decide, rfl⟩,
   (updateCartItem_spec exampleCartState 1 3).2.1 (by decide)
     ⟨{ product := exampleProduct 1 10 "a", quantity := 2 }, by decide, rfl⟩⟩

theorem foldl_add_eq_sum {α β : Type} [AddCommMonoid β] (f : α → β) (l : List α) (a : β) :
    l.foldl (fun acc x => acc + f x) a = a + (l.map f).sum := by
  induction l generalizing a with
  | nil => simp
  | cons x l ih => simp [List.foldl_cons, ih, add_assoc]

theorem updateCartBadge_eq (s : State) : updateCartBadge s = cartItemCountSpec s.cart := by
  unfold updateCartBadge cartItemCountSpec
  rw [foldl_add_eq_sum (fun item : CartItem => item.quantity)]
  simp

theorem sum_filterMap_eq {α : Type} (g : α → Option ℚ) (l : List α) :
    (l.filterMap g).sum = (l.map (fun x => (g x).getD 0)).sum := by
  induction l with
  | nil => rfl
  | cons x l ih =>
    cases hx : g x <;> simp [List.filterMap_cons, hx, ih]

theorem renderCart_eq (s : State) : renderCart s = cartTotalSpec s.products s.cart := by
  unfold renderCart cartTotalSpec
  have hstep : (fun (total : ℚ) (item : CartItem) =>
      match arrayFind (fun p => p.id == item.id) s.products with
      | none => total
      | some product => total + product.price * (item.quantity : ℚ)) =
      (fun total item => total +
        ((resolve s.products item).map (fun p => p.price * (item.quantity : ℚ))).getD 0) := by
    funext total item
    have e : arrayFind (fun p => p.id == item.id) s.products = resolve s.products item := by
      unfold arrayFind resolve
      congr 1
    rw [e]
    cases resolve s.products item <;> simp
  rw [hstep, foldl_add_eq_sum, sum_filterMap_eq]
  split_ifs with h
  · have : s.cart = [] := List.length_eq_zero.mp h
    simp [this]
  · simp

/-- C7: the total `renderCart` writes is the sum, over the cart lines that resolve in the
catalog, of the resolved product's price times the line's quantity (it is 0 for the empty
cart and when no line resolves), and the count `updateCartBadge` writes is the sum of the
quantities of all lines.  The cart `[{id:1, quantity:3}]` over the example catalog, where
product 1 costs 10, gives total 30 and count 3, on one line. -/
theorem cart_totals_spec (s : State) :
    renderCart s = cartTotalSpec s.products s.cart ∧
    updateCartBadge s = cartItemCountSpec s.cart ∧
    renderCart { s with cart := [] } = 0 ∧
    renderCart { s with products := [] } = 0 ∧
    renderCart { exampleState with
      cart := [{ product := exampleProduct 1 10 "a", quantity := 3 }] } = 30 ∧
    updateCartBadge { exampleState with
      cart := [{ product := exampleProduct 1 10 "a", quantity := 3 }] } = 3 ∧
    ({ exampleState with
      cart := [{ product := exampleProduct 1 10 "a", quantity := 3 }] } : State).cart.length = 1 := by
  refine ⟨renderCart_eq s, updateCartBadge_eq s, ?_, ?_, ?_, by decide, by decide⟩
  · simp [renderCart]
  · rw [renderCart_eq]
    have hnone : ∀ l : List CartItem,
        l.filterMap (fun _ : CartItem => (none : Option ℚ)) = [] := by
      intro l
      induction l with
      | nil => rfl
      | cons x l ih => simp [List.filterMap_cons, ih]
    simp [cartTotalSpec, resolve, hnone]
  · simp [renderCart, exampleState, exampleCatalog, exampleProduct, initialState, arrayFind,
      CartItem.id]
    norm_num

/-- The setters `handleSearch` and `handleFilterChange` overwrite their own filter field,
set `currentPage` to 1 and leave every other field of the state as it was;
`handleSortChange` overwrites the sort mode and leaves every other field, `currentPage`
included, as it was. -/
theorem setters_behaviour (s : State) (value : String) :
    (handleSearch s value).1 =
      { s with filters := { s.filters with search := value }, currentPage := 1 } ∧
    (handleFilterChange s value).1 =
      { s with filters := { s.filters with category := value }, currentPage := 1 } ∧
    (handleSortChange s value).1 = { s with filters := { s.filters with sort := value } } :=
  ⟨rfl, rfl, rfl⟩

/-- C8 (the code at the failing input): from page 2, `handleSortChange` with `price-low`
stores the sort mode and leaves `currentPage` at 2, while `handleSearch` and
`handleFilterChange` from the same state put `currentPage` at 1. -/
theorem handleSortChange_keeps_currentPage :
    (handleSortChange examplePagedState "price-low").1.filters.sort = "price-low" ∧
    (handleSortChange examplePagedState "price-low").1.currentPage = 2 ∧
    (handleSearch examplePagedState "shirt").1.currentPage = 1 ∧
    (handleFilterChange examplePagedState "b").1.currentPage = 1 := by
  decide

/-- C9: `handleCheckout` leaves the state as it was except that the cart is emptied.  On an
empty cart the state is the same and the one page write is the error toast; on a non-empty
cart the page writes are the success toast carrying the sum of stored price times quantity
over the lines, the cart badge, the closing of the cart modal, and one order confirmation
carrying the sum of the quantities and the same amount. -/
theorem handleCheckout_spec (now : Nat) (s : State) :
    (handleCheckout now s).1 = { s with cart := [] } ∧
    (s.cart = [] →
      handleCheckout now s = (s, [Effect.toast Message.cartEmpty ToastKind.error])) ∧
    (s.cart ≠ [] →
      (handleCheckout now s).2 =
        [Effect.toast (Message.orderPlaced (checkoutAmountSpec s.cart)) ToastKind.success,
         Effect.cartCount 0, Effect.closeCartModal,
         Effect.confirmation (cartItemCountSpec s.cart) (checkoutAmountSpec s.cart) now]) := by
  have hsum1 : s.cart.foldl (fun sum item => sum + item.quantity) 0 = cartItemCountSpec s.cart := by
    unfold cartItemCountSpec
    rw [foldl_add_eq_sum (fun item : CartItem => item.quantity)]
    simp
  have hsum2 : s.cart.foldl (fun sum item => sum + item.price * (item.quantity : ℚ)) 0 =
      checkoutAmountSpec s.cart := by
    unfold checkoutAmountSpec
    rw [foldl_add_eq_sum (fun item : CartItem => item.price * (item.quantity : ℚ))]
    simp
  refine ⟨?_, ?_, ?_⟩
  · unfold handleCheckout
    split_ifs with h
    · have : s.cart = [] := List.length_eq_zero.mp h
      cases s
      simp_all
    · rfl
  · intro h
    simp [handleCheckout, h, showToast]
  · intro h
    have h2 : ¬ s.cart.length = 0 := fun h0 => h (List.length_eq_zero.mp h0)
    simp only [handleCheckout, h2, if_false, showToast, hsum1, hsum2]
    simp [updateCartBadge]

/-- An instance of `handleCheckout_spec`: checking out the cart holding product 1 twice. -/
theorem handleCheckout_spec_witness :
    exampleCartState.cart ≠ [] ∧
    (handleCheckout 0 exampleCartState).2 =
      [Effect.toast (Message.orderPlaced (checkoutAmountSpec exampleCartState.cart))
         ToastKind.success,
       Effect.cartCount 0, Effect.closeCartModal,
       Effect.confirmation (cartItemCountSpec exampleCartState.cart)
         (checkoutAmountSpec exampleCartState.cart) 0] :=
  ⟨by decide, (handleCheckout_spec 0 exampleCartState).2.2 (by decide)⟩

/-- C10: one `toggleWishlist` flips the membership of the toggled id and of no other id,
leaves the catalog, cart, filters and page as they were, and emits the `added` toast of
kind success when the id was absent and the `removed` toast when it was present; two
calls in a row with the same id give back the wishlist the first call started from. -/
theorem toggleWishlist_spec (shown shown2 : Bool) (s : State) (productId : Nat) :
    (toggleWishlist shown2 (toggleWishlist shown s productId).1 productId).1 = s ∧
    (∀ j, setHas (toggleWishlist shown s productId).1.wishlist j =
      if j = productId then !setHas s.wishlist j else setHas s.wishlist j) ∧
    (toggleWishlist shown s productId).1 =
      { s with wishlist := (toggleWishlist shown s productId).1.wishlist } ∧
    (toggleWishlist shown s productId).2 =
      [if setHas s.wishlist productId then
          Effect.toast Message.removedFromWishlist ToastKind.error
        else Effect.toast Message.addedToWishlist ToastKind.success,
       Effect.wishlistCount (setSize (toggleWishlist shown s productId).1.wishlist),
       if shown then Effect.renderWishlist else Effect.renderProducts] := by
  by_cases h : productId ∈ s.wishlist
  · refine ⟨?_, ?_, ?_, ?_⟩
    · cases s
      simp_all [toggleWishlist, setHas, setDelete, setAdd]
    · intro j
      by_cases hj : j = productId
      · subst hj; simp [toggleWishlist, setHas, setDelete, h]
      · simp [toggleWishlist, setHas, setDelete, h, hj]
    · simp [toggleWishlist, setHas, h]
    · simp [toggleWishlist, setHas, h, showToast]
  · refine ⟨?_, ?_, ?_, ?_⟩
    · cases s
      simp_all [toggleWishlist, setHas, setDelete, setAdd]
    · intro j
      by_cases hj : j = productId
      · subst hj; simp [toggleWishlist, setHas, setAdd, h]
      · simp [toggleWishlist, setHas, setAdd, h, hj]
    · simp [toggleWishlist, setHas, h]
    · simp [toggleWishlist, setHas, h, showToast]

/-- C11 (the code on a failed fetch): for every kind of fetch failure, `fetchProducts`
puts the error placeholder in the products container and leaves the state as it was, and
the `renderProducts` that `initialize` goes on to call empties the container, so that at
the end of `initialize` the container has no child, the placeholder included, while the
state is still the initial one. -/
theorem failed_fetch_placeholder_overwritten (toLowerCase : String → String) (kind : FetchFailure)
    (v : View) :
    (fetchProducts (FetchOutcome.failed kind) initialState (showLoading v)).2.1.productsContainer =
      [Node.errorMessage ErrorText.fetchFailed] ∧
    (initApplication toLowerCase (FetchOutcome.failed kind) initialState v).2.productsContainer
      = [] ∧
    (∀ text, Node.errorMessage text ∉
      (initApplication toLowerCase (FetchOutcome.failed kind) initialState v).2.productsContainer) ∧
    (initApplication toLowerCase (FetchOutcome.failed kind) initialState v).1 = initialState := by
  have h : (initApplication toLowerCase (FetchOutcome.failed kind) initialState v).2.productsContainer
      = [] := by
    simp [initApplication, fetchProducts, renderProducts, hideLoading, filterProducts,
      sortProducts, paginateProducts, arraySlice, arraySort, initialState]
  refine ⟨rfl, h, ?_, rfl⟩
  intro text
  rw [h]
  simp

theorem foldl_congr_mem {α β : Type} (f g : β → α → β) (l : List α)
    (h : ∀ x ∈ l, ∀ a, f a x = g a x) (a : β) : l.foldl f a = l.foldl g a := by
  induction l generalizing a with
  | nil => rfl
  | cons x l ih =>
    simp only [List.foldl_cons]
    rw [h x (List.mem_cons_self _ _) a]
    exact ih (fun y hy => h y (List.mem_cons_of_mem _ hy)) _

theorem renderCart_of_cartResolves (s : State) (h : cartResolves s) :
    renderCart s = s.cart.foldl (fun sum item => sum + item.price * (item.quantity : ℚ)) 0 := by
  have hfold : s.cart.foldl (fun (total : ℚ) (item : CartItem) =>
      match arrayFind (fun p => p.id == item.id) s.products with
      | none => total
      | some product => total + product.price * (item.quantity : ℚ)) 0 =
      s.cart.foldl (fun sum item => sum + item.price * (item.quantity : ℚ)) 0 := by
    apply foldl_congr_mem
    intro item hitem a
    rw [h item hitem]
    rfl
  unfold renderCart
  split_ifs with h0
  · have : s.cart = [] := List.length_eq_zero.mp h0
    simp [this]
  · exact hfold

theorem cartResolves_addToCart (s : State) (productId : Nat) (h : cartResolves s) :
    cartResolves (addToCart s productId).1 := by
  unfold addToCart
  cases hprod : arrayFind (fun p => p.id == productId) s.products with
  | none => exact h
  | some product =>
    obtain ⟨_, _, _, _, hpid⟩ := arrayFind_eq_some _ _ _ hprod
    have hid : product.id = productId := by simpa using hpid
    cases hline : arrayFind (fun item => item.id == productId) s.cart with
    | some line =>
      intro item hitem
      rcases mem_updateFirst _ _ _ _ hitem with h1 | ⟨x, hx, rfl⟩
      · exact h item h1
      · exact h x hx
    | none =>
      intro item hitem
      rcases List.mem_append.mp hitem with h1 | h1
      · exact h item h1
      · simp only [List.mem_singleton] at h1
        subst h1
        show arrayFind (fun p => p.id == product.id) s.products = some product
        rw [hid]
        exact hprod

theorem cartResolves_removeFromCart (s : State) (productId : Nat) (h : cartResolves s) :
    cartResolves (removeFromCart s productId).1 :=
  fun item hitem => h item (List.mem_of_mem_filter hitem)

theorem cartResolves_updateCartItem (s : State) (productId : Nat) (newQuantity : Int)
    (h : cartResolves s) : cartResolves (updateCartItem s productId newQuantity).1 := by
  unfold updateCartItem
  split_ifs with hq
  · exact cartResolves_removeFromCart s productId h
  · cases hline : arrayFind (fun item => item.id == productId) s.cart with
    | none => exact h
    | some line =>
      intro item hitem
      rcases mem_updateFirst _ _ _ _ hitem with h1 | ⟨x, hx, rfl⟩
      · exact h item h1
      · exact h x hx

theorem cartResolves_handleCheckout (now : Nat) (s : State) (h : cartResolves s) :
    cartResolves (handleCheckout now s).1 := by
  unfold handleCheckout
  split_ifs
  · exact h
  · intro item hitem
    simp at hitem

theorem cartResolves_applySessionOp (s : State) (op : SessionOp) (h : cartResolves s) :
    cartResolves (applySessionOp s op) := by
  cases op with
  | add productId => exact cartResolves_addToCart s productId h
  | update productId newQuantity => exact cartResolves_updateCartItem s productId newQuantity h
  | remove productId => exact cartResolves_removeFromCart s productId h
  | checkout now => exact cartResolves_handleCheckout now s h

theorem cartResolves_runSessionOps (ops : List SessionOp) (s : State) (h : cartResolves s) :
    cartResolves (runSessionOps s ops) := by
  induction ops generalizing s with
  | nil => exact h
  | cons op ops ih => exact ih (applySessionOp s op) (cartResolves_applySessionOp s op h)

theorem products_applySessionOp (s : State) (op : SessionOp) :
    (applySessionOp s op).products = s.products := by
  cases op with
  | add productId =>
    simp only [applySessionOp, addToCart]
    cases arrayFind (fun p => p.id == productId) s.products <;> rfl
  | update productId newQuantity =>
    simp only [applySessionOp, updateCartItem, removeFromCart]
    split_ifs
    · rfl
    · cases arrayFind (fun item => item.id == productId) s.cart <;> rfl
  | remove productId => rfl
  | checkout now =>
    simp only [applySessionOp, handleCheckout]
    split_ifs <;> rfl

theorem products_runSessionOps (ops : List SessionOp) (s : State) :
    (runSessionOps s ops).products = s.products := by
  induction ops generalizing s with
  | nil => rfl
  | cons op ops ih =>
    show (runSessionOps (applySessionOp s op) ops).products = s.products
    rw [ih, products_applySessionOp]

/-- C12: over any catalog, ids shared or not, in every state reached from the empty cart by
`addToCart`, `updateCartItem`, `removeFromCart` and `handleCheckout` calls, every cart line
resolves in the catalog to a product whose price is the line's stored price, the amount
`handleCheckout` sums from the stored prices equals the total `renderCart` computes, and
the page writes of `handleCheckout` carry that total. -/
theorem checkout_amount_eq_renderCart (s : State) (catalog : List Product)
    (ops : List SessionOp) (now : Nat) :
    (sessionAfter s catalog ops).products = catalog ∧
    (∀ item ∈ (sessionAfter s catalog ops).cart,
      ∃ product, arrayFind (fun p => p.id == item.id) catalog = some product ∧
        item.price = product.price) ∧
    (sessionAfter s catalog ops).cart.foldl
        (fun sum item => sum + item.price * (item.quantity : ℚ)) 0 =
      renderCart (sessionAfter s catalog ops) ∧
    (handleCheckout now (sessionAfter s catalog ops)).2 =
      if (sessionAfter s catalog ops).cart.length = 0 then
        [Effect.toast Message.cartEmpty ToastKind.error]
      else
        [Effect.toast (Message.orderPlaced (renderCart (sessionAfter s catalog ops)))
           ToastKind.success,
         Effect.cartCount 0, Effect.closeCartModal,
         Effect.confirmation (updateCartBadge (sessionAfter s catalog ops))
           (renderCart (sessionAfter s catalog ops)) now] := by
  have hprod : (sessionAfter s catalog ops).products = catalog :=
    products_runSessionOps ops _
  have hres : cartResolves (sessionAfter s catalog ops) :=
    cartResolves_runSessionOps ops _ (fun item hitem => by simp at hitem)
  have hsum := renderCart_of_cartResolves _ hres
  refine ⟨hprod, ?_, hsum.symm, ?_⟩
  · intro item hitem
    refine ⟨item.product, ?_, rfl⟩
    have := hres item hitem
    rwa [hprod] at this
  · unfold handleCheckout
    split_ifs with h0
    · rfl
    · simp only [showToast, ← hsum]
      simp [updateCartBadge]

/-- An instance of `checkout_amount_eq_renderCart`: over a catalog where two products share
the id 1, after `addToCart(1); addToCart(1); addToCart(2)` the stored-price amount and the
re-resolved total agree. -/
theorem checkout_amount_eq_renderCart_witness :
    (sessionAfter initialState duplicateIdCatalog
        [SessionOp.add 1, SessionOp.add 1, SessionOp.add 2]).cart.foldl
        (fun sum item => sum + item.price * (item.quantity : ℚ)) 0 =
      renderCart (sessionAfter initialState duplicateIdCatalog
        [SessionOp.add 1, SessionOp.add 1, SessionOp.add 2]) :=
  (checkout_amount_eq_renderCart initialState duplicateIdCatalog
    [SessionOp.add 1, SessionOp.add 1, SessionOp.add 2] 0).2.2.1

end Catalog
